import Mathlib

/-!
Shallow embedding of src/globalRecipe.ts from limgit/global-recipes.

JavaScript objects are modelled as insertion-ordered association lists
(Object.entries iterates string keys in insertion order), undefined values
as Option.none, and the side-effecting globalStyle registration calls as a
list of emissions returned in call order.
-/

/-- A variant value supplied in a VariantChoice: a string or a boolean
(the closed sum the code inspects with typeof). -/
inductive VariantValue where
  | str (s : String)
  | bool (b : Bool)

/-- First-match lookup in an association list, modelling JS property access
obj[key] (undefined when absent becomes none). -/
def lookupEntry {α : Type} (m : List (String × α)) (k : String) : Option α :=
  match m with
  | [] => none
  | p :: rest => if p.1 = k then some p.2 else lookupEntry rest k

/-- One variant group: value token to generated class name. -/
abbrev VariantDefs := List (String × String)

/-- recipe.classNames.variants: group name to value-token table. -/
abbrev VariantTable := List (String × VariantDefs)

/-- The variants argument of buildVariantSelector: group name paired with a
chosen value, where none models an entry whose value is undefined. -/
abbrev VariantChoice := List (String × Option VariantValue)

/-- Boolean normalization at line 81 of globalRecipe.ts:
typeof variantValue === "boolean" ? (variantValue ? "true" : "false") : variantValue. -/
def normalizeValue : VariantValue → String
  | .str s => s
  | .bool b => if b then "true" else "false"

/-- The loop body of buildVariantSelector (lines 75-86): processing one
entry of the variants object against the accumulated parts array. -/
def selectorStep (classNames : VariantTable) (parts : List String)
    (entry : String × Option VariantValue) : List String :=
  match entry.2 with
  | none => parts
  | some v =>
    match lookupEntry classNames entry.1 with
    | none => parts
    | some variantClassNames =>
      match lookupEntry variantClassNames (normalizeValue v) with
      | some className => if className = "" then parts else parts ++ ["." ++ className]
      | none => parts

/-- buildVariantSelector (globalRecipe.ts lines 68-89): fold the loop body
over the choice entries in insertion order and join the parts with no
separator. -/
def buildVariantSelector (classNames : VariantTable) (variants : VariantChoice) : String :=
  String.join (variants.foldl (selectorStep classNames) [])

/-- The fragment a single choice entry contributes: none when the entry is
skipped (undefined value, unknown group, missing or falsy class name),
otherwise "." ++ className. -/
def entryFragment (classNames : VariantTable)
    (entry : String × Option VariantValue) : Option String :=
  match entry.2 with
  | none => none
  | some v =>
    match lookupEntry classNames entry.1 with
    | none => none
    | some variantClassNames =>
      match lookupEntry variantClassNames (normalizeValue v) with
      | some className => if className = "" then none else some ("." ++ className)
      | none => none

/-- The fragment a single entry contributes under the reading of the claim
taken literally: any class name found by the lookup yields a fragment,
with no truthiness test on the looked-up class name. -/
def claimedFragment (classNames : VariantTable)
    (entry : String × Option VariantValue) : Option String :=
  match entry.2 with
  | none => none
  | some v =>
    match lookupEntry classNames entry.1 with
    | none => none
    | some variantClassNames =>
      (lookupEntry variantClassNames (normalizeValue v)).map (fun cn => "." ++ cn)

/-- The selector the claim, read literally, says buildVariantSelector
returns. -/
def claimedSelector (classNames : VariantTable) (variants : VariantChoice) : String :=
  String.join (variants.filterMap (claimedFragment classNames))

/-- A flat property list (CSS property name to opaque value), the payload
handed to globalStyle. -/
abbrev StyleProps := List (String × String)

/-- One globalStyle registration call: the full selector and the properties. -/
abbrev Emission := String × StyleProps

/-- A style block as accepted by applyStyle: top-level properties with the
optional nested selectors mapping already separated (the destructuring
const [selectors, ...properties] at line 154); a nested value of none
models an explicitly undefined entry. -/
structure StyleBlock where
  properties : StyleProps
  selectors : Option (List (String × Option StyleProps))

/-- The selectorGenerators object: the required "&" member plus the other
keyed generators in insertion order. -/
structure SelectorGeneratorSet where
  self : String → String
  rest : List (String × (String → String))

/-- Property access selectorGenerators[key]. -/
def SelectorGeneratorSet.find (gens : SelectorGeneratorSet) (k : String) :
    Option (String → String) :=
  if k = "&" then some gens.self else lookupEntry gens.rest k

/-- The loop body of applyStyle over the nested selectors entries
(lines 161-166): emit when the generator exists and the nested style is
present, otherwise skip. -/
def stateStep (gens : SelectorGeneratorSet) (classSelector : String)
    (acc : List Emission) (p : String × Option StyleProps) : List Emission :=
  match gens.find p.1, p.2 with
  | some generator, some selectorStyle => acc ++ [(generator classSelector, selectorStyle)]
  | _, _ => acc

/-- The emission a single nested selectors entry contributes, or none when
it is skipped. -/
def stateEmit (gens : SelectorGeneratorSet) (classSelector : String)
    (p : String × Option StyleProps) : Option Emission :=
  match gens.find p.1, p.2 with
  | some generator, some selectorStyle => some (generator classSelector, selectorStyle)
  | _, _ => none

/-- applyStyle (globalRecipe.ts lines 153-168): the self registration when
the top-level properties are non-empty, then one pass over the nested
selectors entries in insertion order. -/
def applyStyle (gens : SelectorGeneratorSet) (classSelector : String)
    (style : StyleBlock) : List Emission :=
  let selfRegs : List Emission :=
    if style.properties.length > 0 then [(gens.self classSelector, style.properties)] else []
  match style.selectors with
  | none => selfRegs
  | some sels => sels.foldl (stateStep gens classSelector) selfRegs

/-- The options object of globalRecipe: the recipe contributes its base
class name and its classNames.variants table. -/
structure GlobalRecipeOptions where
  recipeBase : String
  recipeVariants : VariantTable
  selectorGenerators : SelectorGeneratorSet
  base : Option StyleBlock
  compoundVariants : Option (List (VariantChoice × StyleBlock))

/-- The forEach body over compoundVariants (lines 174-179): build the
variant selector and expand the entry only when the selector is truthy. -/
def compoundStep (gens : SelectorGeneratorSet) (table : VariantTable)
    (acc : List Emission) (e : VariantChoice × StyleBlock) : List Emission :=
  let variantSelector := buildVariantSelector table e.1
  if variantSelector = "" then acc else acc ++ applyStyle gens variantSelector e.2

/-- globalRecipe (lines 147-180): expand the base block against the recipe
base class when supplied, then each compound-variant entry in array order. -/
def globalRecipe (o : GlobalRecipeOptions) : List Emission :=
  let afterBase : List Emission :=
    match o.base with
    | some b => applyStyle o.selectorGenerators ("." ++ o.recipeBase) b
    | none => []
  match o.compoundVariants with
  | none => afterBase
  | some cvs => cvs.foldl (compoundStep o.selectorGenerators o.recipeVariants) afterBase

/-- The emissions a single compound-variant entry contributes. -/
def compoundEmits (gens : SelectorGeneratorSet) (table : VariantTable)
    (e : VariantChoice × StyleBlock) : List Emission :=
  if buildVariantSelector table e.1 = "" then []
  else applyStyle gens (buildVariantSelector table e.1) e.2

/-- Each loop iteration of buildVariantSelector appends exactly the fragment
of that entry (or nothing) to the accumulated parts. -/
theorem selectorStep_eq_frag (t : VariantTable) (parts : List String)
    (e : String × Option VariantValue) :
    selectorStep t parts e = parts ++ (entryFragment t e).toList := by
  obtain ⟨name, ov⟩ := e
  cases ov with
  | none => simp [selectorStep, entryFragment]
  | some v =>
    cases h : lookupEntry t name with
    | none => simp [selectorStep, entryFragment, h]
    | some g =>
      cases h2 : lookupEntry g (normalizeValue v) with
      | none => simp [selectorStep, entryFragment, h, h2]
      | some cn =>
        by_cases hcn : cn = "" <;> simp [selectorStep, entryFragment, h, h2, hcn]

/-- The fold of the loop body accumulates the fragments of all entries in
order behind the initial accumulator. -/
theorem foldl_selectorStep (t : VariantTable) :
    ∀ (ch : VariantChoice) (acc : List String),
    ch.foldl (selectorStep t) acc = acc ++ ch.filterMap (entryFragment t)
  | [], acc => by simp
  | e :: ch, acc => by
    rw [List.foldl_cons, foldl_selectorStep t ch, selectorStep_eq_frag]
    cases h : entryFragment t e <;> simp [h]

/-- buildVariantSelector is the concatenation of the per-entry fragments in the
insertion order of the choice. -/
theorem buildVariantSelector_eq (t : VariantTable) (ch : VariantChoice) :
    buildVariantSelector t ch = String.join (ch.filterMap (entryFragment t)) := by
  unfold buildVariantSelector
  rw [foldl_selectorStep]
  simp

/-- Each loop iteration over the nested selectors entries appends exactly
the emission of that entry (or nothing). -/
theorem stateStep_eq_emit (gens : SelectorGeneratorSet) (sel : String)
    (acc : List Emission) (p : String × Option StyleProps) :
    stateStep gens sel acc p = acc ++ (stateEmit gens sel p).toList := by
  obtain ⟨k, os⟩ := p
  cases h : gens.find k with
  | none => cases os <;> simp [stateStep, stateEmit, h]
  | some g => cases os <;> simp [stateStep, stateEmit, h]

/-- The fold over the nested selectors entries accumulates the per-entry
emissions in order behind the initial accumulator. -/
theorem foldl_stateStep (gens : SelectorGeneratorSet) (sel : String) :
    ∀ (sels : List (String × Option StyleProps)) (acc : List Emission),
    sels.foldl (stateStep gens sel) acc = acc ++ sels.filterMap (stateEmit gens sel)
  | [], acc => by simp
  | p :: sels, acc => by
    rw [List.foldl_cons, foldl_stateStep gens sel sels, stateStep_eq_emit]
    cases h : stateEmit gens sel p <;> simp [h]

/-- applyStyle emits the self registration (when the top-level properties
are non-empty) followed by the per-state emissions in insertion order. -/
theorem applyStyle_eq (gens : SelectorGeneratorSet) (sel : String) (st : StyleBlock) :
    applyStyle gens sel st =
      (if st.properties.length > 0 then [(gens.self sel, st.properties)] else []) ++
        (st.selectors.getD []).filterMap (stateEmit gens sel) := by
  unfold applyStyle
  cases h : st.selectors with
  | none => simp
  | some sels => simp only [foldl_stateStep]; simp

/-- Each forEach iteration over compoundVariants appends exactly the
emissions of that entry. -/
theorem compoundStep_eq_emits (gens : SelectorGeneratorSet) (t : VariantTable)
    (acc : List Emission) (e : VariantChoice × StyleBlock) :
    compoundStep gens t acc e = acc ++ compoundEmits gens t e := by
  unfold compoundStep compoundEmits
  by_cases h : buildVariantSelector t e.1 = "" <;> simp [h]

/-- The fold over compoundVariants accumulates the per-entry emission lists
in array order behind the initial accumulator. -/
theorem foldl_compoundStep (gens : SelectorGeneratorSet) (t : VariantTable) :
    ∀ (cvs : List (VariantChoice × StyleBlock)) (acc : List Emission),
    cvs.foldl (compoundStep gens t) acc = acc ++ (cvs.map (compoundEmits gens t)).flatten
  | [], acc => by simp
  | e :: cvs, acc => by
    rw [List.foldl_cons, foldl_compoundStep gens t cvs, compoundStep_eq_emits]
    simp

/-- The emissions of the base block, when one is supplied. -/
def baseEmits (o : GlobalRecipeOptions) : List Emission :=
  match o.base with
  | some b => applyStyle o.selectorGenerators ("." ++ o.recipeBase) b
  | none => []

/-- globalRecipe emits the base-block registrations first, then the
concatenation of the per-compound-entry emission lists in array order. -/
theorem globalRecipe_eq (o : GlobalRecipeOptions) :
    globalRecipe o = baseEmits o ++
      ((o.compoundVariants.getD []).map
        (compoundEmits o.selectorGenerators o.recipeVariants)).flatten := by
  unfold globalRecipe baseEmits
  cases h : o.compoundVariants with
  | none => simp
  | some cvs => simp only [foldl_compoundStep]; simp

example : buildVariantSelector [("size", [("sm", "s_sm"), ("md", "s_md")])]
    [("size", some (.str "sm"))] = ".s_sm" := by decide

example : buildVariantSelector [("size", [("sm", "s_sm")])]
    [("size", some (.str "sm")), ("color", some (.str "red")), ("x", none)] = ".s_sm" := by decide

example : buildVariantSelector [("disabled", [("true", "dis_t"), ("false", "dis_f")])]
    [("disabled", some (.bool true))] = ".dis_t" := by decide

example :
    globalRecipe
      { recipeBase := "btn"
        recipeVariants := []
        selectorGenerators := ⟨fun v => v ++ " svg", []⟩
        base := some ⟨[("pointerEvents", "none")], none⟩
        compoundVariants := none } = [(".btn svg", [("pointerEvents", "none")])] := rfl

/-- The self registration part of a style block, as the specification
words it. -/
def applySpec (gens : SelectorGeneratorSet) (sel : String) (st : StyleBlock) :
    List Emission :=
  (if st.properties.length > 0 then [(gens.self sel, st.properties)] else []) ++
    (st.selectors.getD []).filterMap (stateEmit gens sel)

/-- applyStyle emits exactly what the specification order prescribes: the
self registration first, then the state registrations. -/
theorem applyStyle_eq_applySpec (gens : SelectorGeneratorSet) (sel : String)
    (st : StyleBlock) : applyStyle gens sel st = applySpec gens sel st := by
  rw [applyStyle_eq]; rfl

/-- The per-entry emissions expressed through applySpec. -/
theorem compoundEmits_spec (gens : SelectorGeneratorSet) (t : VariantTable)
    (e : VariantChoice × StyleBlock) :
    compoundEmits gens t e =
      if buildVariantSelector t e.1 = "" then []
      else applySpec gens (buildVariantSelector t e.1) e.2 := by
  unfold compoundEmits
  rw [applyStyle_eq_applySpec]

/-- The registration sequence as the specification describes it: base-block
registrations first (self before per-state), then each compound entry in
array order, each again self before per-state. -/
def globalRecipeSpec (o : GlobalRecipeOptions) : List Emission :=
  (match o.base with
   | some b => applySpec o.selectorGenerators ("." ++ o.recipeBase) b
   | none => []) ++
  ((o.compoundVariants.getD []).map (fun e =>
    if buildVariantSelector o.recipeVariants e.1 = "" then []
    else applySpec o.selectorGenerators (buildVariantSelector o.recipeVariants e.1) e.2)).flatten

/-- C2: the globalStyle calls of globalRecipe are ordered as the claim
states: within a style block the self registration (when the top-level
properties are non-empty) precedes every per-state registration of that
block; all registrations of the base block precede all registrations of
compound-variant entries; and compound-variant entries are processed in
the order of the supplied array. -/
theorem globalRecipe_emission_order (o : GlobalRecipeOptions) :
    globalRecipe o = globalRecipeSpec o := by
  have hfun : compoundEmits o.selectorGenerators o.recipeVariants =
      (fun e => if buildVariantSelector o.recipeVariants e.1 = "" then []
        else applySpec o.selectorGenerators (buildVariantSelector o.recipeVariants e.1) e.2) :=
    funext (fun e => compoundEmits_spec _ _ e)
  rw [globalRecipe_eq, hfun]
  unfold globalRecipeSpec baseEmits
  congr 1
  cases o.base with
  | none => rfl
  | some b => exact applyStyle_eq_applySpec o.selectorGenerators ("." ++ o.recipeBase) b

/-- C1 counterexample: with the table mapping group g, value k, to the
empty-string class name, the code returns the empty string while the
claim as stated (any class name found by the table lookup produces a
fragment) yields the selector ".". -/
theorem buildVariantSelector_claim_counterexample :
    buildVariantSelector [("g", [("k", "")])] [("g", some (.str "k"))] ≠
      claimedSelector [("g", [("k", "")])] [("g", some (.str "k"))] := by
  decide

/-- C1 (amended): buildVariantSelector returns exactly the concatenation,
with no separator and in the insertion order of the choice entries, of
one fragment "." ++ className per entry whose value is not undefined,
whose group is present in the table, and whose boolean-normalized value
key maps to a non-empty class name there; all other entries contribute
nothing, and the result is the empty string when no fragment is
produced. -/
theorem buildVariantSelector_concatenation (t : VariantTable) (ch : VariantChoice) :
    buildVariantSelector t ch = String.join (ch.filterMap (entryFragment t)) :=
  buildVariantSelector_eq t ch

/-- C3: a compound-variant entry whose choice resolves to the empty
compound selector contributes no registration at all: removing it from
the compoundVariants array leaves the emissions of globalRecipe
unchanged, whatever the style block of that entry holds. -/
theorem globalRecipe_skips_empty_selector_entry (gens : SelectorGeneratorSet)
    (bc : String) (t : VariantTable) (ob : Option StyleBlock)
    (pre post : List (VariantChoice × StyleBlock)) (ch : VariantChoice) (st : StyleBlock)
    (h : buildVariantSelector t ch = "") :
    globalRecipe ⟨bc, t, gens, ob, some (pre ++ (ch, st) :: post)⟩ =
      globalRecipe ⟨bc, t, gens, ob, some (pre ++ post)⟩ := by
  have hc : compoundEmits gens t (ch, st) = [] := by
    unfold compoundEmits
    simp [h]
  rw [globalRecipe_eq, globalRecipe_eq]
  simp [baseEmits, hc]

/-- C3 witness: a choice whose only entry is unset resolves to the empty
selector, and the entry is dropped even though its style block carries
both top-level properties and a nested hover style. -/
theorem globalRecipe_skips_empty_selector_entry_holds :
    buildVariantSelector [("g", [("k", "c")])] [("g", none)] = "" ∧
    globalRecipe ⟨"b", [("g", [("k", "c")])], ⟨fun v => v ++ " svg", []⟩, none,
        some [([("g", none)],
          ⟨[("width", "16px")], some [("&:hover", some [("color", "red")])]⟩)]⟩ =
      globalRecipe ⟨"b", [("g", [("k", "c")])], ⟨fun v => v ++ " svg", []⟩, none, some []⟩ :=
  ⟨rfl, globalRecipe_skips_empty_selector_entry _ _ _ _ [] [] _ _ rfl⟩

/-- C4: a style block with no top-level properties produces no self
registration; its emissions are exactly one registration, in insertion
order, per nested state entry having both a generator and a present
nested block. -/
theorem applyStyle_empty_properties (gens : SelectorGeneratorSet) (sel : String)
    (st : StyleBlock) (h : st.properties = []) :
    applyStyle gens sel st = (st.selectors.getD []).filterMap (stateEmit gens sel) := by
  rw [applyStyle_eq, h]
  simp

/-- C4 witness: a block with empty properties, a hover state with a
generator, a focus state with an undefined block, and a state with no
generator emits exactly the single hover registration. -/
theorem applyStyle_empty_properties_holds :
    (StyleBlock.mk []
        (some [("&:hover", some [("color", "red")]), ("&:focus", none),
          ("&:checked", some [("x", "y")])])).properties = [] ∧
    applyStyle ⟨fun v => v, [("&:hover", fun v => v ++ ":hover")]⟩ ".a"
        ⟨[], some [("&:hover", some [("color", "red")]), ("&:focus", none),
          ("&:checked", some [("x", "y")])]⟩ =
      ((StyleBlock.mk []
        (some [("&:hover", some [("color", "red")]), ("&:focus", none),
          ("&:checked", some [("x", "y")])])).selectors.getD []).filterMap
        (stateEmit ⟨fun v => v, [("&:hover", fun v => v ++ ":hover")]⟩ ".a") ∧
    applyStyle ⟨fun v => v, [("&:hover", fun v => v ++ ":hover")]⟩ ".a"
        ⟨[], some [("&:hover", some [("color", "red")]), ("&:focus", none),
          ("&:checked", some [("x", "y")])]⟩ = [(".a:hover", [("color", "red")])] :=
  ⟨rfl, applyStyle_empty_properties _ _ _ rfl, rfl⟩

/-- C5: a boolean variant value is normalized to the token "true" or
"false" before the table lookup, so a boolean choice produces exactly
the selector that the corresponding string token would produce. -/
theorem buildVariantSelector_bool_normalization (t : VariantTable) (name : String)
    (b : Bool) (pre post : VariantChoice) :
    buildVariantSelector t (pre ++ (name, some (.bool b)) :: post) =
      buildVariantSelector t (pre ++ (name, some (.str (if b then "true" else "false"))) :: post) := by
  have hf : entryFragment t (name, some (VariantValue.bool b)) =
      entryFragment t (name, some (VariantValue.str (if b then "true" else "false"))) := by
    cases b <;> rfl
  rw [buildVariantSelector_eq, buildVariantSelector_eq]
  simp only [List.filterMap_append, List.filterMap_cons, hf]

/-- C6: a nested state entry whose tag has no generator in the set is
skipped silently: removing it leaves the emissions of applyStyle
unchanged, and the other states of the block still emit. -/
theorem applyStyle_skips_missing_generator (gens : SelectorGeneratorSet) (sel : String)
    (props : StyleProps) (pre post : List (String × Option StyleProps))
    (k : String) (ov : Option StyleProps) (h : gens.find k = none) :
    applyStyle gens sel ⟨props, some (pre ++ (k, ov) :: post)⟩ =
      applyStyle gens sel ⟨props, some (pre ++ post)⟩ := by
  have he : stateEmit gens sel (k, ov) = none := by
    cases ov <;> simp [stateEmit, h]
  rw [applyStyle_eq, applyStyle_eq]
  simp [List.filterMap_append, List.filterMap_cons, he]

/-- C6 witness: the focus tag has no generator, so its entry is dropped
while the self and hover registrations are still emitted. -/
theorem applyStyle_skips_missing_generator_holds :
    (SelectorGeneratorSet.mk (fun v => v) [("&:hover", fun v => v ++ ":hover")]).find
        "&:focus" = none ∧
    applyStyle ⟨fun v => v, [("&:hover", fun v => v ++ ":hover")]⟩ ".a"
        ⟨[("width", "16px")], some [("&:hover", some [("color", "red")]),
          ("&:focus", some [("outline", "none")])]⟩ =
      applyStyle ⟨fun v => v, [("&:hover", fun v => v ++ ":hover")]⟩ ".a"
        ⟨[("width", "16px")], some [("&:hover", some [("color", "red")])]⟩ ∧
    applyStyle ⟨fun v => v, [("&:hover", fun v => v ++ ":hover")]⟩ ".a"
        ⟨[("width", "16px")], some [("&:hover", some [("color", "red")]),
          ("&:focus", some [("outline", "none")])]⟩ =
      [(".a", [("width", "16px")]), (".a:hover", [("color", "red")])] :=
  ⟨rfl,
    applyStyle_skips_missing_generator _ _ _ [("&:hover", some [("color", "red")])] [] _ _ rfl,
    rfl⟩

/-- Length of a filterMap counted through the predicate "the function
returns a value". -/
theorem length_filterMap_isSome {α β : Type} (f : α → Option β) (l : List α) :
    (l.filterMap f).length = l.countP (fun a => (f a).isSome) := by
  induction l with
  | nil => simp
  | cons a l ih =>
    cases h : f a <;> simp [List.filterMap_cons, List.countP_cons, h, ih]

/-- C7 counterexample: the compound entry resolves to the non-empty
selector ".s" and is expanded, but its style block has no top-level
properties and no nested states, so globalRecipe emits zero calls where
the claim as stated demands exactly one call for the base-tag
properties. -/
theorem expansion_count_counterexample :
    buildVariantSelector [("size", [("sm", "s")])] [("size", some (.str "sm"))] ≠ "" ∧
    (globalRecipe ⟨"b", [("size", [("sm", "s")])], ⟨fun v => v ++ " svg", []⟩, none,
        some [([("size", some (.str "sm"))], ⟨[], none⟩)]⟩).length ≠ 1 := by
  constructor
  · decide
  · decide

/-- C7 (amended): for every expanded style block the external facility is
called exactly once for the base-tag properties when they are non-empty
(zero times when they are empty), and exactly once more per additional
state tag of the nested mapping that has a generator in the set and a
present nested block. -/
theorem applyStyle_emission_count (gens : SelectorGeneratorSet) (sel : String)
    (st : StyleBlock) :
    (applyStyle gens sel st).length =
      (if st.properties = [] then 0 else 1) +
        (st.selectors.getD []).countP (fun p => (gens.find p.1).isSome && p.2.isSome) := by
  have hpt : ∀ p : String × Option StyleProps,
      (stateEmit gens sel p).isSome = ((gens.find p.1).isSome && p.2.isSome) := by
    intro p
    obtain ⟨k, ov⟩ := p
    cases h : gens.find k <;> cases ov <;> simp [stateEmit, h]
  rw [applyStyle_eq, List.length_append, length_filterMap_isSome]
  simp only [hpt]
  congr 1
  cases st.properties <;> simp

/-- C8: when a base style block is supplied, globalRecipe expands it with
the compound selector "." followed by the recipe base class name; the
remaining emissions are those of the same options without a base block. -/
theorem globalRecipe_base_class (o : GlobalRecipeOptions) (b : StyleBlock)
    (h : o.base = some b) :
    globalRecipe o =
      applyStyle o.selectorGenerators ("." ++ o.recipeBase) b ++
        globalRecipe { o with base := none } := by
  rw [globalRecipe_eq, globalRecipe_eq]
  simp [baseEmits, h]

/-- C8 witness: with generator v appended with " svg", base block
pointerEvents none and base class btn, the single emission is
(".btn svg", pointerEvents none). -/
theorem globalRecipe_base_class_holds :
    (GlobalRecipeOptions.mk "btn" [] ⟨fun v => v ++ " svg", []⟩
        (some ⟨[("pointerEvents", "none")], none⟩) none).base =
      some ⟨[("pointerEvents", "none")], none⟩ ∧
    globalRecipe ⟨"btn", [], ⟨fun v => v ++ " svg", []⟩,
        some ⟨[("pointerEvents", "none")], none⟩, none⟩ =
      applyStyle ⟨fun v => v ++ " svg", []⟩ ("." ++ "btn")
          ⟨[("pointerEvents", "none")], none⟩ ++
        globalRecipe ⟨"btn", [], ⟨fun v => v ++ " svg", []⟩, none, none⟩ ∧
    globalRecipe ⟨"btn", [], ⟨fun v => v ++ " svg", []⟩,
        some ⟨[("pointerEvents", "none")], none⟩, none⟩ =
      [(".btn svg", [("pointerEvents", "none")])] :=
  ⟨rfl, globalRecipe_base_class _ _ rfl, rfl⟩

/-- C9: buildVariantSelector is a total function, and an entry at any
position of the choice that is unset, or names a group absent from the
table, or whose normalized value key is absent from the group mapping,
contributes no fragment: dropping it leaves the selector unchanged. -/
theorem buildVariantSelector_total_skip (t : VariantTable) (name : String)
    (ov : Option VariantValue) (pre post : VariantChoice)
    (h : ov = none ∨ lookupEntry t name = none ∨
      ∃ v g, ov = some v ∧ lookupEntry t name = some g ∧
        lookupEntry g (normalizeValue v) = none) :
    buildVariantSelector t (pre ++ (name, ov) :: post) =
      buildVariantSelector t (pre ++ post) := by
  have hf : entryFragment t (name, ov) = none := by
    rcases h with h | h | ⟨v, g, hv, hg, hl⟩
    · subst h; rfl
    · cases ov with
      | none => rfl
      | some v => simp [entryFragment, h]
    · subst hv
      simp [entryFragment, hg, hl]
  rw [buildVariantSelector_eq, buildVariantSelector_eq]
  simp [List.filterMap_append, List.filterMap_cons, hf]

/-- C9 witness: in the choice with size set and variant unset, the unset
entry in second position contributes nothing and the preceding entry
still produces its fragment. -/
theorem buildVariantSelector_total_skip_holds :
    buildVariantSelector [("size", [("sm", "s_sm")])]
        [("size", some (.str "sm")), ("variant", none)] =
      buildVariantSelector [("size", [("sm", "s_sm")])] [("size", some (.str "sm"))] ∧
    buildVariantSelector [("size", [("sm", "s_sm")])] [("size", some (.str "sm"))] =
      ".s_sm" :=
  ⟨buildVariantSelector_total_skip _ _ _ [("size", some (.str "sm"))] [] (Or.inl rfl), rfl⟩

/-- C10: an entry at any position of the choice whose group exists and
whose normalized value key maps to the empty-string class name is
skipped exactly like an absent one, because the code tests the
looked-up class name for truthiness. -/
theorem buildVariantSelector_skips_empty_class (t : VariantTable) (name : String)
    (v : VariantValue) (g : VariantDefs) (pre post : VariantChoice)
    (hg : lookupEntry t name = some g)
    (hc : lookupEntry g (normalizeValue v) = some "") :
    buildVariantSelector t (pre ++ (name, some v) :: post) =
      buildVariantSelector t (pre ++ post) := by
  have hf : entryFragment t (name, some v) = none := by
    simp [entryFragment, hg, hc]
  rw [buildVariantSelector_eq, buildVariantSelector_eq]
  simp [List.filterMap_append, List.filterMap_cons, hf]

/-- C10 witness: the g entry, sitting between two contributing entries,
maps to the empty-string class and is dropped; the surrounding entries
still emit their fragments. -/
theorem buildVariantSelector_skips_empty_class_holds :
    lookupEntry [("a", [("x", "ca")]), ("g", [("k", "")]), ("b", [("y", "cb")])] "g" =
      some [("k", "")] ∧
    lookupEntry [("k", "")] (normalizeValue (.str "k")) = some "" ∧
    buildVariantSelector [("a", [("x", "ca")]), ("g", [("k", "")]), ("b", [("y", "cb")])]
        [("a", some (.str "x")), ("g", some (.str "k")), ("b", some (.str "y"))] =
      buildVariantSelector [("a", [("x", "ca")]), ("g", [("k", "")]), ("b", [("y", "cb")])]
        [("a", some (.str "x")), ("b", some (.str "y"))] ∧
    buildVariantSelector [("a", [("x", "ca")]), ("g", [("k", "")]), ("b", [("y", "cb")])]
        [("a", some (.str "x")), ("b", some (.str "y"))] = ".ca.cb" :=
  ⟨rfl, rfl,
    buildVariantSelector_skips_empty_class _ _ _ _ [("a", some (.str "x"))]
      [("b", some (.str "y"))] rfl rfl,
    rfl⟩
